import Mathlib

/-!
Shallow embedding of the resilient data-access layer of the
momentum-trader charting backend (`src/backend/services/schwab_client.py`
and `src/backend/services/quote_relay.py`), together with theorems
checking the natural-language specification against the code.

Modelling conventions:
* wall-clock instants (`time.time()` values) are naturals; the Python
  float comparison `now - t > timeout` is embedded with truncated natural
  subtraction, which agrees with the real-number comparison whenever
  `t ≤ now` and also when `now < t` (both sides make the guard false);
* candle records are opaque tokens (`Candle := Nat`): no claim inspects
  their fields, only whole candle lists flow through cache and results;
* the fetch coroutine `get_price_history` is embedded as a pure function
  over an explicit environment: the circuit-breaker state, the cache,
  the current instant, whether the admission semaphore was acquired in
  time, and a stream of upstream outcomes (one per retry attempt);
  observable effects (record_failure / record_success calls, backoff
  sleeps, issued requests) are returned as counters and traces.
-/

/-- States of the circuit breaker (`self.state` strings in the source). -/
inductive BreakerState where
  | CLOSED
  | OPEN
  | HALF_OPEN
deriving DecidableEq, Repr

/-- Embedding of `CircuitBreaker.__init__`: thresholds and mutable fields. -/
structure CircuitBreaker where
  failure_threshold : Nat
  timeout_seconds : Nat
  failure_count : Nat
  last_failure_time : Option Nat
  state : BreakerState
deriving DecidableEq, Repr

/-- Breaker constructed at module load: `CircuitBreaker(failure_threshold=3, timeout_seconds=60)`. -/
def defaultBreaker : CircuitBreaker :=
  { failure_threshold := 3
    timeout_seconds := 60
    failure_count := 0
    last_failure_time := none
    state := BreakerState.CLOSED }

/-- Embedding of `CircuitBreaker.can_execute`. The source mutates
`self.state` when an OPEN breaker's cooldown has elapsed, so the embedding
returns the admission decision together with the updated breaker. The
guard `t ≠ 0` mirrors Python's truthiness test
`if self.last_failure_time and (...)` (a stored time of `0.0` is falsy). -/
def can_execute (b : CircuitBreaker) (now : Nat) : Bool × CircuitBreaker :=
  match b.state with
  | BreakerState.CLOSED => (true, b)
  | BreakerState.OPEN =>
      match b.last_failure_time with
      | some t =>
          if t ≠ 0 ∧ now - t > b.timeout_seconds then
            (true, { b with state := BreakerState.HALF_OPEN })
          else
            (false, b)
      | none => (false, b)
  | BreakerState.HALF_OPEN => (true, b)

/-- Embedding of `CircuitBreaker.record_success`: unconditionally close
the breaker and clear the failure count. -/
def record_success (b : CircuitBreaker) : CircuitBreaker :=
  { b with state := BreakerState.CLOSED, failure_count := 0 }

/-- Embedding of `CircuitBreaker.record_failure` at instant `now`:
increment the count, stamp the failure time, and open the breaker once
the count reaches the threshold. -/
def record_failure (b : CircuitBreaker) (now : Nat) : CircuitBreaker :=
  let b1 := { b with
    failure_count := b.failure_count + 1
    last_failure_time := some now }
  if b1.failure_count ≥ b1.failure_threshold then
    { b1 with state := BreakerState.OPEN }
  else
    b1

/-- Candle records are opaque tokens: no claim inspects their fields. -/
abbrev Candle := Nat

/-- Module-level `_candle_cache` dict, embedded as an association list
from cache key to `(timestamp, data)`; a `put` prepends, a lookup takes
the first match, which realises the dict's replace-on-put semantics. -/
abbrev CandleCache := List (String × Nat × List Candle)

/-- Module-level `_CACHE_TTL_SECONDS = 60`. -/
def _CACHE_TTL_SECONDS : Nat := 60

/-- Lookup of `_candle_cache.get(cache_key)`. -/
def cacheLookup : CandleCache → String → Option (Nat × List Candle)
  | [], _ => none
  | (k, t, v) :: rest, key => if k = key then some (t, v) else cacheLookup rest key

/-- Write `_candle_cache[cache_key] = (time_module.time(), result)`. -/
def cachePut (c : CandleCache) (key : String) (t : Nat) (v : List Candle) : CandleCache :=
  (key, t, v) :: c

/-- Embedding of `get_cached_candles` (the same expression also appears
inlined at the top of `get_price_history`): return the cached data when
its age is strictly below the TTL, otherwise absent. -/
def get_cached_candles (cache : CandleCache) (now : Nat) (key : String) : Option (List Candle) :=
  match cacheLookup cache key with
  | some (t, v) => if now - t < _CACHE_TTL_SECONDS then some v else none
  | none => none

/-- Outcome of one attempt of the retry loop: an HTTP response with a
status code (the body is the parsed candle list, used only when the
status is 200), a local hard timeout (`asyncio.TimeoutError`), or any
other exception (JSON/candle parse failure, token-file error, ...). -/
inductive Outcome where
  | resp (code : Nat) (body : List Candle)
  | timeout
  | exc
deriving DecidableEq, Repr

/-- Status code carried by an `Outcome`, when it is an HTTP response. -/
def Outcome.codeOf : Outcome → Option Nat
  | Outcome.resp c _ => some c
  | Outcome.timeout => none
  | Outcome.exc => none

/-- Observable result of one `get_price_history` call: the returned
value, the final breaker and cache, and traces of the side effects
(number of `record_failure` / `record_success` calls, backoff delays
slept, upstream requests issued). -/
structure FetchResult where
  result : Option (List Candle)
  breaker : CircuitBreaker
  cache : CandleCache
  failures : Nat
  successes : Nat
  sleeps : List Nat
  requests : Nat
deriving DecidableEq, Repr

/-- Embedding of the `for attempt in range(max_retries)` body of
`get_price_history`. `remaining = maxRetries - attempt` is the loop fuel;
`responses attempt` is the outcome of the attempt's upstream call.
Branches mirror the source order: 429 → retry with backoff unless
attempts exhausted, then `record_failure`; status ≥ 500 → same;
any other non-200 status → return `None` with no `record_failure` and no
retry; 200 → `record_success`, populate the cache, return the candles;
`asyncio.TimeoutError` → `record_failure`, retry unless exhausted;
any other exception → `record_failure`, return `None`. -/
def fetchLoop (key : String) (now : Nat) (responses : Nat → Outcome)
    (maxRetries base_delay : Nat) :
    Nat → Nat → CircuitBreaker → CandleCache → Nat → Nat → List Nat → Nat → FetchResult
  | 0, _, b, cache, f, s, sl, r =>
      { result := none, breaker := b, cache := cache,
        failures := f, successes := s, sleeps := sl, requests := r }
  | remaining + 1, attempt, b, cache, f, s, sl, r =>
      match responses attempt with
      | Outcome.resp code body =>
          if code = 429 then
            if attempt < maxRetries - 1 then
              fetchLoop key now responses maxRetries base_delay remaining (attempt + 1)
                b cache f s (sl ++ [base_delay * 2 ^ attempt]) (r + 1)
            else
              { result := none, breaker := record_failure b now, cache := cache,
                failures := f + 1, successes := s, sleeps := sl, requests := r + 1 }
          else if 500 ≤ code then
            if attempt < maxRetries - 1 then
              fetchLoop key now responses maxRetries base_delay remaining (attempt + 1)
                b cache f s (sl ++ [base_delay * 2 ^ attempt]) (r + 1)
            else
              { result := none, breaker := record_failure b now, cache := cache,
                failures := f + 1, successes := s, sleeps := sl, requests := r + 1 }
          else if code ≠ 200 then
            { result := none, breaker := b, cache := cache,
              failures := f, successes := s, sleeps := sl, requests := r + 1 }
          else
            { result := some body, breaker := record_success b,
              cache := cachePut cache key now body,
              failures := f, successes := s + 1, sleeps := sl, requests := r + 1 }
      | Outcome.timeout =>
          if attempt < maxRetries - 1 then
            fetchLoop key now responses maxRetries base_delay remaining (attempt + 1)
              (record_failure b now) cache (f + 1) s
              (sl ++ [base_delay * 2 ^ attempt]) (r + 1)
          else
            { result := none, breaker := record_failure b now, cache := cache,
              failures := f + 1, successes := s, sleeps := sl, requests := r + 1 }
      | Outcome.exc =>
          { result := none, breaker := record_failure b now, cache := cache,
            failures := f + 1, successes := s, sleeps := sl, requests := r + 1 }

/-- Embedding of `ChartSchwabClient.get_price_history`: cache probe,
breaker gate, admission-semaphore acquisition with timeout (`semOk`
tells whether the 10-second `asyncio.wait_for` on the semaphore
succeeded), then the retry loop with `max_retries = 3` and
`base_delay = 1`. -/
def get_price_history (b : CircuitBreaker) (cache : CandleCache) (now : Nat)
    (key : String) (semOk : Bool) (responses : Nat → Outcome) : FetchResult :=
  match get_cached_candles cache now key with
  | some v =>
      { result := some v, breaker := b, cache := cache,
        failures := 0, successes := 0, sleeps := [], requests := 0 }
  | none =>
      let gate := can_execute b now
      if gate.1 = false then
        { result := none, breaker := gate.2, cache := cache,
          failures := 0, successes := 0, sleeps := [], requests := 0 }
      else if semOk = false then
        { result := none, breaker := gate.2, cache := cache,
          failures := 0, successes := 0, sleeps := [], requests := 0 }
      else
        fetchLoop key now responses 3 1 3 0 gate.2 cache 0 0 [] 0

/-- Messages emitted on the upstream SocketIO connection by the relay.
Python stores `_current_symbols` as `list(set(...))` with unspecified
order, so payloads are embedded as finite sets of symbols. -/
inductive EmitEvent where
  | subscribeQuotes (symbols : Finset String)
  | unsubscribeQuotes (symbols : Finset String)
deriving DecidableEq

/-- Connection-and-subscription state of `QuoteRelay`, with traces of the
upstream emits and of the status notifications broadcast to status
callbacks. The callback lists themselves are modelled separately (see
`Callback` below), since the claims about them concern dispatch only. -/
structure QuoteRelay where
  connected : Bool
  current_symbols : Finset String
  emitted : List EmitEvent
  statusEvents : List Bool
deriving DecidableEq

/-- Embedding of `QuoteRelay.subscribe`: union the new symbols into the
desired set, then — only if connected — emit a `subscribe_quotes`
message carrying just the delta `symbols` argument. -/
def QuoteRelay.subscribe (r : QuoteRelay) (symbols : List String) : QuoteRelay :=
  let r1 := { r with current_symbols := r.current_symbols ∪ symbols.toFinset }
  if r1.connected then
    { r1 with emitted := r1.emitted ++ [EmitEvent.subscribeQuotes symbols.toFinset] }
  else
    r1

/-- Embedding of `QuoteRelay.unsubscribe`: emit the delta when connected,
then remove the symbols from the desired set. -/
def QuoteRelay.unsubscribe (r : QuoteRelay) (symbols : List String) : QuoteRelay :=
  let r1 :=
    if r.connected then
      { r with emitted := r.emitted ++ [EmitEvent.unsubscribeQuotes symbols.toFinset] }
    else
      r
  { r1 with current_symbols := r1.current_symbols \ symbols.toFinset }

/-- Embedding of `QuoteRelay._on_connect`: mark connected, notify status
callbacks with `connected = true`, then — if the desired set is nonempty
(Python list truthiness) — emit one `subscribe_quotes` carrying the full
current desired set. -/
def QuoteRelay.on_connect (r : QuoteRelay) : QuoteRelay :=
  let r1 := { r with connected := true, statusEvents := r.statusEvents ++ [true] }
  if r1.current_symbols = ∅ then
    r1
  else
    { r1 with emitted := r1.emitted ++ [EmitEvent.subscribeQuotes r1.current_symbols] }

/-- Embedding of `QuoteRelay._on_disconnect`: mark disconnected and
notify status callbacks with `connected = false`. -/
def QuoteRelay.on_disconnect (r : QuoteRelay) : QuoteRelay :=
  { r with connected := false, statusEvents := r.statusEvents ++ [false] }

/-- Relay freshly constructed by `QuoteRelay.__init__`. -/
def initialRelay : QuoteRelay :=
  { connected := false, current_symbols := ∅, emitted := [], statusEvents := [] }

/-- Action a callback body may take on the registry it is registered in
while it runs: nothing, or `remove_callback` on the callback carrying a
given id. -/
inductive CbAction where
  | pass
  | removeCb (i : Nat)
deriving DecidableEq, Repr

/-- A registered listener callback, identified by `id`; `raises` tells
whether its body ends by raising an exception, `action` what it does to
the callback registry while running. -/
structure Callback where
  id : Nat
  raises : Bool
  action : CbAction
deriving DecidableEq, Repr

/-- Embedding of `QuoteRelay.remove_callback`: if a callback with the
given id is present, remove its first occurrence (Python
`if cb in self._callbacks: self._callbacks.remove(cb)`). -/
def remove_callback : List Callback → Nat → List Callback
  | [], _ => []
  | c :: rest, i => if c.id = i then rest else c :: remove_callback rest i

/-- Apply a callback body's registry action to the callback list. -/
def applyAction : CbAction → List Callback → List Callback
  | CbAction.pass, cbs => cbs
  | CbAction.removeCb i, cbs => remove_callback cbs i

/-- Run one callback body against the current registry: the body first
performs its registry action, then returns normally or raises. -/
def runBody (cb : Callback) (cbs : List Callback) : List Callback × Except Unit Unit :=
  (applyAction cb.action cbs, if cb.raises then Except.error () else Except.ok ())

/-- Embedding of the `for cb in self._callbacks: try: cb(data) except
Exception: pass` loop of `QuoteRelay._on_quote`. The Python `for`
iterates the LIVE list by index: each step fetches `cbs[i]` if
`i < len(cbs)`, runs the body (which may mutate the list), and moves to
`i + 1`; an exception from the body is swallowed and the loop continues.
The fuel argument bounds the iteration count; since bodies can only
remove, `cbs.length` fuel is exact. Returns the ids invoked (in order)
and the final callback list. -/
def dispatchLoop : Nat → List Callback → Nat → List Nat → List Nat × List Callback
  | 0, cbs, _, invoked => (invoked, cbs)
  | fuel + 1, cbs, i, invoked =>
      if h : i < cbs.length then
        let cb := cbs.get ⟨i, h⟩
        match runBody cb cbs with
        | (cbs1, Except.ok _) => dispatchLoop fuel cbs1 (i + 1) (invoked ++ [cb.id])
        | (cbs1, Except.error _) => dispatchLoop fuel cbs1 (i + 1) (invoked ++ [cb.id])
      else
        (invoked, cbs)

/-- Embedding of `QuoteRelay._on_quote` restricted to its dispatch loop
over `self._callbacks`. -/
def on_quote (cbs : List Callback) : List Nat × List Callback :=
  dispatchLoop cbs.length cbs 0 []

/-- Embedding of `QuoteRelay._notify_status`: the identical live-list
loop over `self._status_callbacks`, each call wrapped in
`try ... except Exception: pass`. -/
def notify_status (cbs : List Callback) : List Nat × List Callback :=
  dispatchLoop cbs.length cbs 0 []

/-- C1. The claim says a HALF_OPEN breaker admits exactly one trial:
after the OPEN→HALF_OPEN transition admits the probe, further
`can_execute()` calls made before any `record_success`/`record_failure`
should return false. The code's `can_execute` returns `True`
unconditionally in HALF_OPEN (its own comment reads "allow one request
to test", but nothing enforces the limit): evaluating at a concrete
failing input, the transition call admits, and a second `can_execute`
on the resulting HALF_OPEN breaker — with nothing recorded in between —
admits again. -/
theorem circuit_breaker_half_open_readmits :
    (can_execute (record_failure (record_failure (record_failure defaultBreaker 10) 10) 10) 71).1 = true ∧
    (can_execute (record_failure (record_failure (record_failure defaultBreaker 10) 10) 10) 71).2.state = BreakerState.HALF_OPEN ∧
    (can_execute (can_execute (record_failure (record_failure (record_failure defaultBreaker 10) 10) 10) 71).2 71).1 = true := by
  decide

/-- C3. Starting from the default CLOSED breaker with zero failures,
three consecutive `record_failure` calls open the breaker; while
`now - last_failure_time ≤ 60` every `can_execute` call returns false
and leaves the breaker unchanged (so repeated calls keep returning
false), and a `can_execute` call with `now - last_failure_time > 60`
returns true and moves the state to HALF_OPEN. The hypothesis
`0 < t3` reflects that `time.time()` is never `0.0` (a zero stamp is
falsy in the source's `if self.last_failure_time and ...` guard). -/
theorem breaker_opens_after_three_failures_and_cools_down
    (t1 t2 t3 now : Nat) (ht : 0 < t3) :
    (record_failure (record_failure (record_failure defaultBreaker t1) t2) t3).state = BreakerState.OPEN ∧
    (now - t3 ≤ 60 →
      can_execute (record_failure (record_failure (record_failure defaultBreaker t1) t2) t3) now =
        (false, record_failure (record_failure (record_failure defaultBreaker t1) t2) t3)) ∧
    (60 < now - t3 →
      can_execute (record_failure (record_failure (record_failure defaultBreaker t1) t2) t3) now =
        (true, { record_failure (record_failure (record_failure defaultBreaker t1) t2) t3 with
                   state := BreakerState.HALF_OPEN })) := by
  have hb : record_failure (record_failure (record_failure defaultBreaker t1) t2) t3 =
      { failure_threshold := 3, timeout_seconds := 60, failure_count := 3,
        last_failure_time := some t3, state := BreakerState.OPEN } := rfl
  refine ⟨by rw [hb], ?_, ?_⟩
  · intro h
    rw [hb]
    show (if t3 ≠ 0 ∧ now - t3 > 60 then _ else _) = _
    rw [if_neg]
    omega
  · intro h
    rw [hb]
    show (if t3 ≠ 0 ∧ now - t3 > 60 then _ else _) = _
    rw [if_pos ⟨Nat.pos_iff_ne_zero.mp ht, h⟩]

/-- Witness for C3 at concrete inputs: failures stamped at 5, a call at
30 (elapsed 25 ≤ 60) is rejected without changing the breaker, a call at
100 (elapsed 95 > 60) is admitted and moves to HALF_OPEN. -/
theorem breaker_opens_after_three_failures_and_cools_down_witness :
    can_execute (record_failure (record_failure (record_failure defaultBreaker 5) 5) 5) 30 =
      (false, record_failure (record_failure (record_failure defaultBreaker 5) 5) 5) ∧
    can_execute (record_failure (record_failure (record_failure defaultBreaker 5) 5) 5) 100 =
      (true, { record_failure (record_failure (record_failure defaultBreaker 5) 5) 5 with
                 state := BreakerState.HALF_OPEN }) :=
  ⟨(breaker_opens_after_three_failures_and_cools_down 5 5 5 30 (by decide)).2.1 (by decide),
   (breaker_opens_after_three_failures_and_cools_down 5 5 5 100 (by decide)).2.2 (by decide)⟩

/-- C10. `record_success` called in any breaker state closes the breaker
and zeroes the failure count; in particular the resulting breaker admits
the next call immediately (no cooldown wait), and any accumulated
failure count is cleared. -/
theorem record_success_resets_breaker (b : CircuitBreaker) (now : Nat) :
    (record_success b).state = BreakerState.CLOSED ∧
    (record_success b).failure_count = 0 ∧
    (can_execute (record_success b) now).1 = true :=
  ⟨rfl, rfl, rfl⟩

/-- C6. A cache read strictly before `_CACHE_TTL_SECONDS` (60) have
elapsed since the put returns the stored value (in particular a read at
the instant of the put), and a read once the age is ≥ 60 returns
absent. -/
theorem cache_ttl_fresh_hit_stale_miss
    (c : CandleCache) (k : String) (v : List Candle) (t now : Nat) :
    (now - t < _CACHE_TTL_SECONDS →
      get_cached_candles (cachePut c k t v) now k = some v) ∧
    (_CACHE_TTL_SECONDS ≤ now - t →
      get_cached_candles (cachePut c k t v) now k = none) := by
  constructor
  · intro h
    simp [get_cached_candles, cachePut, cacheLookup, h]
  · intro h
    simp [get_cached_candles, cachePut, cacheLookup, Nat.not_lt.mpr h]

/-- Witness for C6: a value put at instant 100 is returned by a read at
100 (age 0) and absent for a read at 160 (age 60). -/
theorem cache_ttl_fresh_hit_stale_miss_witness :
    get_cached_candles (cachePut [] "SPY:minute:1" 100 [7]) 100 "SPY:minute:1" = some [7] ∧
    get_cached_candles (cachePut [] "SPY:minute:1" 100 [7]) 160 "SPY:minute:1" = none :=
  ⟨(cache_ttl_fresh_hit_stale_miss [] "SPY:minute:1" [7] 100 100).1 (by decide),
   (cache_ttl_fresh_hit_stale_miss [] "SPY:minute:1" [7] 100 160).2 (by decide)⟩

/-- C2 counterexample. The claim says three straight 500 responses with
`max_attempts = 3` cause `record_failure()` to be called exactly 3
times. Evaluating the fetch on a cold cache with a CLOSED breaker and
responses `[500, 500, 500]`: the result is Unavailable after 3 requests
and 2 backoff sleeps, but `record_failure` runs exactly once — the
retried 500s on non-final attempts only sleep and continue, and only the
final attempt's 500 records a failure. -/
theorem fetch_500_500_500_single_failure_counterexample :
    (get_price_history defaultBreaker [] 0 "SPY:minute:1" true (fun _ => Outcome.resp 500 [])).result = none ∧
    (get_price_history defaultBreaker [] 0 "SPY:minute:1" true (fun _ => Outcome.resp 500 [])).requests = 3 ∧
    (get_price_history defaultBreaker [] 0 "SPY:minute:1" true (fun _ => Outcome.resp 500 [])).failures = 1 ∧
    (get_price_history defaultBreaker [] 0 "SPY:minute:1" true (fun _ => Outcome.resp 500 [])).failures ≠ 3 := by
  decide

/-- C2 amended. For a fetch with `max_retries = 3` that reaches the
retry loop (cold cache, CLOSED breaker, semaphore acquired) and whose
three upstream responses all have status 500, the fetch issues 3
requests, sleeps the backoffs 1s and 2s, returns Unavailable, and calls
`record_failure()` exactly once, on the final attempt. -/
theorem fetch_500_exhaustion_records_one_failure
    (b : CircuitBreaker) (cache : CandleCache) (now : Nat) (key : String)
    (responses : Nat → Outcome) (c0 c1 c2 : List Candle)
    (hb : b.state = BreakerState.CLOSED)
    (hc : get_cached_candles cache now key = none)
    (h0 : responses 0 = Outcome.resp 500 c0)
    (h1 : responses 1 = Outcome.resp 500 c1)
    (h2 : responses 2 = Outcome.resp 500 c2) :
    get_price_history b cache now key true responses =
      { result := none, breaker := record_failure b now, cache := cache,
        failures := 1, successes := 0, sleeps := [1, 2], requests := 3 } := by
  obtain ⟨ft, ts, fc, lft, st⟩ := b
  simp only at hb
  subst hb
  simp only [get_price_history, hc, can_execute]
  simp only [fetchLoop, h0, h1, h2]
  norm_num

/-- Witness for C2's amended theorem at a concrete input. -/
theorem fetch_500_exhaustion_records_one_failure_witness :
    get_price_history defaultBreaker [] 0 "QQQ:minute:1" true (fun _ => Outcome.resp 500 []) =
      { result := none, breaker := record_failure defaultBreaker 0, cache := [],
        failures := 1, successes := 0, sleeps := [1, 2], requests := 3 } :=
  fetch_500_exhaustion_records_one_failure defaultBreaker [] 0 "QQQ:minute:1"
    (fun _ => Outcome.resp 500 []) [] [] [] rfl rfl rfl rfl rfl

/-- C4 counterexample. The claim says a single 404 makes the fetch call
`record_failure()`, perform zero retries, and return Unavailable.
Evaluating at a 404 response: the fetch does return Unavailable after
exactly one request with no backoff sleep, but `record_failure` is never
called and the breaker is returned unchanged — the `status_code != 200`
branch of the source returns with no breaker update. -/
theorem fetch_404_no_record_failure_counterexample :
    (get_price_history defaultBreaker [] 0 "SPY:minute:1" true (fun _ => Outcome.resp 404 [])).result = none ∧
    (get_price_history defaultBreaker [] 0 "SPY:minute:1" true (fun _ => Outcome.resp 404 [])).requests = 1 ∧
    (get_price_history defaultBreaker [] 0 "SPY:minute:1" true (fun _ => Outcome.resp 404 [])).sleeps = [] ∧
    (get_price_history defaultBreaker [] 0 "SPY:minute:1" true (fun _ => Outcome.resp 404 [])).failures = 0 ∧
    (get_price_history defaultBreaker [] 0 "SPY:minute:1" true (fun _ => Outcome.resp 404 [])).breaker = defaultBreaker := by
  decide

/-- C4 amended. For a fetch reaching the retry loop: an upstream status
that is neither 200, nor 429, nor ≥ 500 ends the fetch after that single
request with Unavailable, zero retries, and NO `record_failure()` call
(breaker returned unchanged); a parse failure (any exception from the
request/parse path) ends the fetch after that single request with
Unavailable, zero retries, and exactly one `record_failure()` call. -/
theorem fetch_nonretryable_status_and_parse_failure
    (b : CircuitBreaker) (cache : CandleCache) (now : Nat) (key : String)
    (responses : Nat → Outcome) (code : Nat) (body : List Candle)
    (hb : b.state = BreakerState.CLOSED)
    (hc : get_cached_candles cache now key = none) :
    (responses 0 = Outcome.resp code body → code ≠ 429 → code < 500 → code ≠ 200 →
      get_price_history b cache now key true responses =
        { result := none, breaker := b, cache := cache,
          failures := 0, successes := 0, sleeps := [], requests := 1 }) ∧
    (responses 0 = Outcome.exc →
      get_price_history b cache now key true responses =
        { result := none, breaker := record_failure b now, cache := cache,
          failures := 1, successes := 0, sleeps := [], requests := 1 }) := by
  obtain ⟨ft, ts, fc, lft, st⟩ := b
  simp only at hb
  subst hb
  constructor
  · intro h0 hne429 hlt500 hne200
    simp only [get_price_history, hc, can_execute]
    simp only [fetchLoop, h0]
    simp [hne429, Nat.not_le.mpr hlt500, hne200]
  · intro h0
    simp only [get_price_history, hc, can_execute]
    simp only [fetchLoop, h0]
    norm_num

/-- Witness for C4's amended theorem: a 404 response and an exception
outcome, both on a cold cache with the default breaker. -/
theorem fetch_nonretryable_status_and_parse_failure_witness :
    get_price_history defaultBreaker [] 0 "QQQ:minute:1" true (fun _ => Outcome.resp 404 []) =
      { result := none, breaker := defaultBreaker, cache := [],
        failures := 0, successes := 0, sleeps := [], requests := 1 } ∧
    get_price_history defaultBreaker [] 0 "QQQ:minute:1" true (fun _ => Outcome.exc) =
      { result := none, breaker := record_failure defaultBreaker 0, cache := [],
        failures := 1, successes := 0, sleeps := [], requests := 1 } :=
  ⟨(fetch_nonretryable_status_and_parse_failure defaultBreaker [] 0 "QQQ:minute:1"
      (fun _ => Outcome.resp 404 []) 404 [] rfl rfl).1 rfl (by decide) (by decide) (by decide),
   (fetch_nonretryable_status_and_parse_failure defaultBreaker [] 0 "QQQ:minute:1"
      (fun _ => Outcome.exc) 404 [] rfl rfl).2 rfl⟩

/-- C5 counterexample. The claim says an admission-semaphore timeout
leaves the circuit breaker's state unchanged. But `can_execute()` runs
BEFORE the semaphore acquisition, and on an OPEN breaker whose cooldown
has elapsed it moves the state to HALF_OPEN; a semaphore timeout right
after returns Unavailable with zero requests and zero `record_failure`
calls, yet the breaker's state has changed from OPEN to HALF_OPEN. -/
theorem semaphore_timeout_state_change_counterexample :
    (get_price_history
        { failure_threshold := 3, timeout_seconds := 60, failure_count := 3,
          last_failure_time := some 1, state := BreakerState.OPEN }
        [] 62 "SPY:minute:1" false (fun _ => Outcome.exc)).result = none ∧
    (get_price_history
        { failure_threshold := 3, timeout_seconds := 60, failure_count := 3,
          last_failure_time := some 1, state := BreakerState.OPEN }
        [] 62 "SPY:minute:1" false (fun _ => Outcome.exc)).requests = 0 ∧
    (get_price_history
        { failure_threshold := 3, timeout_seconds := 60, failure_count := 3,
          last_failure_time := some 1, state := BreakerState.OPEN }
        [] 62 "SPY:minute:1" false (fun _ => Outcome.exc)).failures = 0 ∧
    (get_price_history
        { failure_threshold := 3, timeout_seconds := 60, failure_count := 3,
          last_failure_time := some 1, state := BreakerState.OPEN }
        [] 62 "SPY:minute:1" false (fun _ => Outcome.exc)).breaker.state = BreakerState.HALF_OPEN ∧
    BreakerState.HALF_OPEN ≠ BreakerState.OPEN := by
  decide

/-- C5 amended. When the fetch reaches the semaphore (cache miss, gate
admitted) and acquisition times out, the fetch ends immediately with
Unavailable: zero upstream requests, zero retries/sleeps, no
`record_failure()` or `record_success()` call, and `failure_count`
unchanged; the breaker returned is exactly the gate's output, so its
state is unchanged except that the preceding `can_execute()` may already
have moved OPEN→HALF_OPEN. -/
theorem semaphore_timeout_no_request_no_failure
    (b : CircuitBreaker) (cache : CandleCache) (now : Nat) (key : String)
    (responses : Nat → Outcome)
    (hc : get_cached_candles cache now key = none)
    (hg : (can_execute b now).1 = true) :
    get_price_history b cache now key false responses =
      { result := none, breaker := (can_execute b now).2, cache := cache,
        failures := 0, successes := 0, sleeps := [], requests := 0 } ∧
    (can_execute b now).2.failure_count = b.failure_count := by
  constructor
  · simp only [get_price_history, hc, hg]
    norm_num
  · obtain ⟨ft, ts, fc, lft, st⟩ := b
    cases st <;> rcases lft with _ | t <;> simp only [can_execute]
    split <;> rfl

/-- Witness for C5's amended theorem: OPEN breaker past its cooldown,
cold cache, semaphore timed out. -/
theorem semaphore_timeout_no_request_no_failure_witness :
    get_price_history
        { failure_threshold := 3, timeout_seconds := 60, failure_count := 3,
          last_failure_time := some 1, state := BreakerState.OPEN }
        [] 62 "QQQ:minute:1" false (fun _ => Outcome.exc) =
      { result := none,
        breaker := (can_execute
          { failure_threshold := 3, timeout_seconds := 60, failure_count := 3,
            last_failure_time := some 1, state := BreakerState.OPEN } 62).2,
        cache := [], failures := 0, successes := 0, sleeps := [], requests := 0 } ∧
    (can_execute
        { failure_threshold := 3, timeout_seconds := 60, failure_count := 3,
          last_failure_time := some 1, state := BreakerState.OPEN } 62).2.failure_count =
      ({ failure_threshold := 3, timeout_seconds := 60, failure_count := 3,
         last_failure_time := some 1, state := BreakerState.OPEN } : CircuitBreaker).failure_count :=
  semaphore_timeout_no_request_no_failure
    { failure_threshold := 3, timeout_seconds := 60, failure_count := 3,
      last_failure_time := some 1, state := BreakerState.OPEN }
    [] 62 "QQQ:minute:1" (fun _ => Outcome.exc) rfl (by decide)

/-- C7. A `subscribe(symbols)` issued while the relay is not connected
sends no upstream message but unions the symbols into the desired set;
the next `_on_connect` then sends exactly one `subscribe_quotes` call
carrying the full current desired set (pre-disconnect symbols plus those
added while disconnected). The hypothesis that the union is nonempty
reflects the source's `if self._current_symbols:` truthiness guard. -/
theorem subscribe_deferred_replayed_on_connect
    (r : QuoteRelay) (syms : List String)
    (hdisc : r.connected = false)
    (hne : r.current_symbols ∪ syms.toFinset ≠ ∅) :
    (r.subscribe syms).emitted = r.emitted ∧
    (r.subscribe syms).current_symbols = r.current_symbols ∪ syms.toFinset ∧
    (r.subscribe syms).on_connect.emitted =
      r.emitted ++ [EmitEvent.subscribeQuotes (r.current_symbols ∪ syms.toFinset)] := by
  simp [QuoteRelay.subscribe, QuoteRelay.on_connect, hdisc, hne]

/-- Witness for C7: a relay that connected, subscribed to AAPL, then
disconnected; XHLD is subscribed while disconnected (no emit), and the
reconnect replays one subscribe call carrying {AAPL, XHLD}. -/
theorem subscribe_deferred_replayed_on_connect_witness :
    ((QuoteRelay.on_disconnect (QuoteRelay.subscribe (QuoteRelay.on_connect initialRelay) ["AAPL"])).subscribe ["XHLD"]).emitted =
      (QuoteRelay.on_disconnect (QuoteRelay.subscribe (QuoteRelay.on_connect initialRelay) ["AAPL"])).emitted ∧
    ((QuoteRelay.on_disconnect (QuoteRelay.subscribe (QuoteRelay.on_connect initialRelay) ["AAPL"])).subscribe ["XHLD"]).current_symbols =
      (QuoteRelay.on_disconnect (QuoteRelay.subscribe (QuoteRelay.on_connect initialRelay) ["AAPL"])).current_symbols ∪ (["XHLD"] : List String).toFinset ∧
    ((QuoteRelay.on_disconnect (QuoteRelay.subscribe (QuoteRelay.on_connect initialRelay) ["AAPL"])).subscribe ["XHLD"]).on_connect.emitted =
      (QuoteRelay.on_disconnect (QuoteRelay.subscribe (QuoteRelay.on_connect initialRelay) ["AAPL"])).emitted ++
        [EmitEvent.subscribeQuotes ((QuoteRelay.on_disconnect (QuoteRelay.subscribe (QuoteRelay.on_connect initialRelay) ["AAPL"])).current_symbols ∪ (["XHLD"] : List String).toFinset)] :=
  subscribe_deferred_replayed_on_connect _ _ (by decide) (by decide)

/-- Helper for C8: when no callback body mutates the registry, the
live-list dispatch loop starting at index `i` with enough fuel invokes
every remaining callback once, in registration order, whatever the
`raises` flags are — the `try/except pass` swallows each exception and
the loop continues. -/
theorem dispatchLoop_all_pass (cbs : List Callback) (h : ∀ cb ∈ cbs, cb.action = CbAction.pass) :
    ∀ (fuel i : Nat) (invoked : List Nat), cbs.length - i ≤ fuel →
      dispatchLoop fuel cbs i invoked = (invoked ++ (cbs.drop i).map Callback.id, cbs) := by
  intro fuel
  induction fuel with
  | zero =>
      intro i invoked hle
      have hge : cbs.length ≤ i := by omega
      simp [dispatchLoop, List.drop_eq_nil_of_le hge]
  | succ n ih =>
      intro i invoked hle
      by_cases hi : i < cbs.length
      · have hmem : cbs.get ⟨i, hi⟩ ∈ cbs := List.get_mem cbs i hi
        have hact : (cbs.get ⟨i, hi⟩).action = CbAction.pass := h _ hmem
        have hdrop : cbs.drop i = cbs.get ⟨i, hi⟩ :: cbs.drop (i + 1) := by
          rw [List.get_eq_getElem]
          exact List.drop_eq_getElem_cons hi
        have hstep : dispatchLoop (n + 1) cbs i invoked =
            dispatchLoop n cbs (i + 1) (invoked ++ [(cbs.get ⟨i, hi⟩).id]) := by
          rw [dispatchLoop, dif_pos hi]
          simp only [runBody, hact, applyAction]
          cases (cbs.get ⟨i, hi⟩).raises <;> rfl
        rw [hstep, ih (i + 1) (invoked ++ [(cbs.get ⟨i, hi⟩).id]) (by omega), hdrop]
        have hi2 : i < (List.map Callback.id cbs).length := by simpa using hi
        simp
        rw [List.drop_eq_getElem_cons hi2, List.getElem_map]
      · rw [dispatchLoop, dif_neg hi]
        simp [List.drop_eq_nil_of_le (Nat.not_lt.mp hi)]

/-- C8. For every quote dispatch and every status dispatch over
registered listeners none of which mutates the registry mid-dispatch:
every listener is invoked with the event exactly once, in registration
order, REGARDLESS of which listeners raise exceptions — in particular a
listener registered after a raising one is still delivered to. -/
theorem listener_exception_does_not_block_delivery
    (cbs scbs : List Callback)
    (hq : ∀ cb ∈ cbs, cb.action = CbAction.pass)
    (hs : ∀ cb ∈ scbs, cb.action = CbAction.pass) :
    (on_quote cbs).1 = cbs.map Callback.id ∧
    (notify_status scbs).1 = scbs.map Callback.id := by
  constructor
  · rw [on_quote, dispatchLoop_all_pass cbs hq cbs.length 0 [] (by omega)]
    simp
  · rw [notify_status, dispatchLoop_all_pass scbs hs scbs.length 0 [] (by omega)]
    simp

/-- Witness for C8: a raising listener registered first does not block
delivery to the later-registered listener, for quote and for status
dispatch. -/
theorem listener_exception_does_not_block_delivery_witness :
    (on_quote [⟨0, true, CbAction.pass⟩, ⟨1, false, CbAction.pass⟩]).1 =
      List.map Callback.id [⟨0, true, CbAction.pass⟩, ⟨1, false, CbAction.pass⟩] ∧
    (notify_status [⟨2, true, CbAction.pass⟩, ⟨3, false, CbAction.pass⟩]).1 =
      List.map Callback.id [⟨2, true, CbAction.pass⟩, ⟨3, false, CbAction.pass⟩] :=
  listener_exception_does_not_block_delivery _ _ (by decide) (by decide)

/-- C9. The claim says each dispatch iterates a snapshot of the listener
list taken at dispatch start, so a mid-dispatch `remove_callback` cannot
cause a listener present at dispatch start to be skipped. The source
iterates the LIVE list: evaluating the dispatch on two listeners where
the first one's body removes itself, only the first listener (id 0) is
invoked — the second (id 1), present at dispatch start, is skipped,
because Python's index-based iteration moves to index 1 of the shrunken
list. -/
theorem dispatch_live_list_skips_listener :
    on_quote [{ id := 0, raises := false, action := CbAction.removeCb 0 },
              { id := 1, raises := false, action := CbAction.pass }] =
      ([0], [{ id := 1, raises := false, action := CbAction.pass }]) ∧
    (1 : Nat) ∉ (on_quote [{ id := 0, raises := false, action := CbAction.removeCb 0 },
              { id := 1, raises := false, action := CbAction.pass }]).1 := by
  decide
